import Mathlib

/-!
Shallow embedding of the fault-tolerant external-dependency access layer:
the object-store façade (`RemoteStorageWrapper`), the control-file decoder
(`ControlFile`), and the key-value client (`RedisKVClient`).

Everything is translated from the Rust source under
`pageserver/src/tenant/timeline/import_pgdata/importbucket_client.rs` and
`proxy/src/redis/kv_ops.rs`.  Pieces of the repository that those files call
but that are not part of the given sources (the retry driver
`download_retry_forever`, `ControlFileData::decode`, `Lsn::align`, and the
ranged-download semantics of the storage backend) are modelled from the
specification and are marked as such in their doc comments.
-/

namespace Neon

/-! ## Control-file decoder -/

/-- Database major versions recognized by the import path
(`postgres_ffi::PgMajorVersion` as used by `try_pg_version`). -/
inductive PgMajorVersion where
  | PG14
  | PG15
  | PG16
  | PG17
deriving DecidableEq, Repr

/-- The two control-file fields this layer consumes
(`postgres_ffi::ControlFileData`, fields `catalog_version_no` and
`checkPoint`). -/
structure ControlFileData where
  catalog_version_no : Nat
  checkPoint : Nat
deriving DecidableEq, Repr

/-- A raw control-file buffer, abstracted to the information the decoder
extracts from it: `some d` is a buffer whose fixed binary layout parses to
the fields `d`; `none` is a malformed buffer. -/
def ControlFileBuf : Type := Option ControlFileData

instance : DecidableEq ControlFileBuf := by
  unfold ControlFileBuf
  infer_instance

/-- Errors produced by control-file construction (`anyhow::Error` in the
source; per the error taxonomy both a parse failure and an unrecognized
version are Decode errors). -/
inductive CfError where
  | decode (msg : String)
deriving DecidableEq, Repr

/-- Modelled from the spec: `ControlFileData::decode` (in `postgres_ffi`,
not among the given sources) parses the fixed binary layout, extracting the
catalog-version integer and the checkpoint log position; a malformed buffer
is a fatal decode error. -/
def ControlFileData.decode (buf : ControlFileBuf) : Except CfError ControlFileData :=
  match buf with
  | some d => .ok d
  | none => .error (.decode "malformed control file")

/-- `ControlFile`: the decoded control-file data together with the raw
buffer it came from. -/
structure ControlFile where
  control_file_data : ControlFileData
  control_file_buf : ControlFileBuf
deriving DecidableEq

/-- `ControlFile::try_pg_version`: exact-match table over the catalog
version; anything outside the table bails with a decode error. -/
def ControlFile.try_pg_version (cf : ControlFile) : Except CfError PgMajorVersion :=
  let catversion := cf.control_file_data.catalog_version_no
  if catversion = 202107181 then .ok .PG14
  else if catversion = 202209061 then .ok .PG15
  else if catversion = 202307071 then .ok .PG16
  else if catversion = 202406281 then .ok .PG17
  else .error (.decode ("unrecognized catalog version " ++ toString catversion))

/-- `ControlFile::new`: decode the buffer, then validate the version once so
that `pg_version` can be offered infallibly. -/
def ControlFile.new (control_file_buf : ControlFileBuf) : Except CfError ControlFile := do
  let control_file_data ← ControlFileData.decode control_file_buf
  let control_file : ControlFile :=
    { control_file_data := control_file_data, control_file_buf := control_file_buf }
  let _ ← control_file.try_pg_version
  return control_file

/-- Modelled from the spec: the WAL segment size used for the alignment
floor ("nearest valid segment boundary"); the standard 16 MiB segment. -/
def WAL_SEGMENT_SIZE : Nat := 16 * 1024 * 1024

/-- Modelled from the spec: `Lsn::align` (in `utils::lsn`, not among the
given sources): the checkpoint position is "aligned down to the nearest
valid segment boundary" — the alignment floor. -/
def Lsn.align (lsn : Nat) : Nat := lsn / WAL_SEGMENT_SIZE * WAL_SEGMENT_SIZE

/-- `ControlFile::base_lsn`: the aligned checkpoint position. -/
def ControlFile.base_lsn (cf : ControlFile) : Nat :=
  Lsn.align cf.control_file_data.checkPoint

/-- `ControlFile::pg_version`: the infallible accessor.  The source
`expect`s on `try_pg_version`; the `none` case of this model corresponds to
the panic, which construction-time validation makes unreachable. -/
def ControlFile.pg_version (cf : ControlFile) : Option PgMajorVersion :=
  cf.try_pg_version.toOption

/-! ## Object-store façade -/

/-- The error taxonomy of downloads (`remote_storage::DownloadError`,
restricted to the classes the spec distinguishes): absence, cancellation, a
transient network/service hiccup, and a terminal decode/other failure. -/
inductive DownloadError where
  | NotFound
  | Cancelled
  | Transient
  | Other (msg : String)
deriving DecidableEq, Repr

/-- Terminal ("permanent") errors are returned immediately by the retry
driver; only transient errors are retried. -/
def DownloadError.isPermanent : DownloadError → Bool
  | .Transient => false
  | _ => true

instance exceptDecEq {ε α : Type} [DecidableEq ε] [DecidableEq α] :
    DecidableEq (Except ε α) := fun x y =>
  match x, y with
  | .ok a, .ok b =>
    if h : a = b then .isTrue (by rw [h]) else .isFalse (by simp [h])
  | .ok _, .error _ => .isFalse (by simp)
  | .error _, .ok _ => .isFalse (by simp)
  | .error a, .error b =>
    if h : a = b then .isTrue (by rw [h]) else .isFalse (by simp [h])

/-- The outcome of running one façade operation for a bounded number of
steps: `panicked` — a precondition assert/unwrap fired; `pending` —
still retrying when the step budget ran out; `done r` — the operation
returned `r` to the caller. -/
inductive RunResult (α : Type) where
  | panicked
  | pending
  | done (r : Except DownloadError α)
deriving DecidableEq, Repr

/-- Modelled from the spec: the RetryForever driver
(`download_retry_forever` in `remote_timeline_client::download`, not among
the given sources).  `f i` is the outcome of attempt `i`, `cancel i` tells
whether the cancellation signal is set when attempt `i` fails.  On success
return it; a terminal failure is returned immediately; on a transient
failure check cancellation (Cancelled if signaled), else retry.  There is
no retry-count ceiling, so the recursion is step-indexed by `fuel`:
`none` means the loop is still running after `fuel` attempts. -/
def retryForeverAux (f : Nat → Except DownloadError α) (cancel : Nat → Bool) :
    Nat → Nat → Option (Except DownloadError α)
  | _, 0 => none
  | i, fuel + 1 =>
    match f i with
    | .ok v => some (.ok v)
    | .error e =>
      if e.isPermanent then
        some (.error e)
      else if cancel i then
        some (.error .Cancelled)
      else
        retryForeverAux f cancel (i + 1) fuel

/-- The retry driver, started at attempt 0. -/
def download_retry_forever (f : Nat → Except DownloadError α) (cancel : Nat → Bool)
    (fuel : Nat) : Option (Except DownloadError α) :=
  retryForeverAux f cancel 0 fuel

/-- Lift the step-indexed retry outcome to a `RunResult`. -/
def runOf : Option (Except DownloadError α) → RunResult α
  | none => .pending
  | some r => .done r

/-- One entry of a listing page (`remote_storage::ListingObject`). -/
structure ListingObject where
  key : String
  size : Nat
deriving DecidableEq, Repr

/-- A merged listing response (`remote_storage::Listing`): leaf keys and
common-prefix "directory" keys. -/
structure Listing where
  keys : List ListingObject
  prefixes : List String
deriving DecidableEq, Repr

/-- A `RemotePath`, as its list of `/`-separated components: `["a", "b"]`
is the path `a/b`, and a trailing empty component is a trailing slash. -/
abbrev RemotePath : Type := List String

/-- The environment a `RemoteStorageWrapper` call runs against: the objects
in the store, what the backend's delimiter listing returns for a prefix,
which attempts suffer a transient failure, and when cancellation fires. -/
structure StoreEnv where
  objects : RemotePath → Option (List Nat)
  listing : RemotePath → Listing
  flaky : Nat → Bool
  cancel : Nat → Bool

/-- A quiet environment: no transient failures, no cancellation, empty
listings. -/
def StoreEnv.calm (objects : RemotePath → Option (List Nat)) : StoreEnv :=
  { objects := objects
    listing := fun _ => { keys := [], prefixes := [] }
    flaky := fun _ => false
    cancel := fun _ => false }

/-- Attempt oracle: attempt `i` of a deterministic backend operation
`base`, which fails transiently whenever the environment is flaky. -/
def StoreEnv.attempt (env : StoreEnv) (base : Except DownloadError α) (i : Nat) :
    Except DownloadError α :=
  if env.flaky i then .error .Transient else base

/-- `RemotePath::object_name` (final non-empty path component, if any). -/
def object_name (path : RemotePath) : Option String :=
  match path.getLast? with
  | some s => if s = "" then none else some s
  | none => none

/-- `RemotePath::add_trailing_slash`. -/
def add_trailing_slash (path : RemotePath) : RemotePath := path ++ [""]

/-- `RemoteStorageWrapper::listfilesindir`: assert the path names a
directory, list with delimiter under the prefix, and keep `(key, size)` of
the leaf keys.  The whole operation runs under the retry driver. -/
def listfilesindir (env : StoreEnv) (path : RemotePath) (fuel : Nat) :
    RunResult (List (String × Nat)) :=
  match object_name path with
  | none => .panicked
  | some _ =>
    let p := add_trailing_slash path
    runOf (download_retry_forever
      (env.attempt (.ok ((env.listing p).keys.map fun o => (o.key, o.size))))
      env.cancel fuel)

/-- `RemoteStorageWrapper::listdir`: like `listfilesindir` but returning
leaf keys chained with the common prefixes. -/
def listdir (env : StoreEnv) (path : RemotePath) (fuel : Nat) :
    RunResult (List String) :=
  match object_name path with
  | none => .panicked
  | some _ =>
    let p := add_trailing_slash path
    runOf (download_retry_forever
      (env.attempt (.ok (((env.listing p).keys.map fun o => o.key) ++ (env.listing p).prefixes)))
      env.cancel fuel)

/-- The full-object download that `get` performs on each attempt: the whole
byte buffer of the object, or NotFound. -/
def getOp (env : StoreEnv) (path : RemotePath) : Except DownloadError (List Nat) :=
  match env.objects path with
  | some buf => .ok buf
  | none => .error .NotFound

/-- `RemoteStorageWrapper::get`: full download under the retry driver. -/
def get (env : StoreEnv) (path : RemotePath) (fuel : Nat) : RunResult (List Nat) :=
  runOf (download_retry_forever (env.attempt (getOp env path)) env.cancel fuel)

/-- `u64::checked_sub`. -/
def checked_sub (a b : Nat) : Option Nat :=
  if b ≤ a then some (a - b) else none

/-- Modelled from the spec: a ranged download
(`storage.download` with `byte_start`/`byte_end` bounds, served by the
`remote_storage` backend, not among the given sources): exactly
`end_exclusive - start_inclusive` bytes starting at `start_inclusive` when
the object holds at least `end_exclusive` bytes; the call fails when the
object holds fewer. -/
def downloadRangeOp (env : StoreEnv) (path : RemotePath)
    (start_inclusive end_exclusive : Nat) : Except DownloadError (List Nat) :=
  match env.objects path with
  | none => .error .NotFound
  | some buf =>
    if end_exclusive ≤ buf.length then
      .ok ((buf.drop start_inclusive).take (end_exclusive - start_inclusive))
    else
      .error (.Other "range end beyond object length")

/-- `RemoteStorageWrapper::get_range`: the length
`end_exclusive.checked_sub(start_inclusive).unwrap()` is computed before
any I/O (its `unwrap` panics when `start_inclusive > end_exclusive`); then
the ranged download runs under the retry driver. -/
def get_range (env : StoreEnv) (path : RemotePath)
    (start_inclusive end_exclusive : Nat) (fuel : Nat) : RunResult (List Nat) :=
  match checked_sub end_exclusive start_inclusive with
  | none => .panicked
  | some _len =>
    runOf (download_retry_forever
      (env.attempt (downloadRangeOp env path start_inclusive end_exclusive))
      env.cancel fuel)

/-- `RemoteStorageWrapper::get_json`: absent object (NotFound) is `none`;
any other download error propagates; a present object is deserialized
(`parse` abstracts `serde_json` for the caller-specified shape `T`), a
parse failure becoming a terminal `Other` error. -/
def get_json (env : StoreEnv) (parse : List Nat → Option T) (path : RemotePath)
    (fuel : Nat) : RunResult (Option T) :=
  match get env path fuel with
  | .done (.ok buf) =>
    match parse buf with
    | some v => .done (.ok (some v))
    | none => .done (.error (.Other "serialize"))
  | .done (.error .NotFound) => .done (.ok none)
  | .done (.error e) => .done (.error e)
  | .pending => .pending
  | .panicked => .panicked

/-! ## Key-value client -/

/-- `redis::RetryMethod`, the classification of a failed query returned by
the redis crate's `RedisError::retry_method`.  `kv_ops` names three arms
and sends every other variant to a catch-all. -/
inductive RetryMethod where
  | Reconnect
  | RetryImmediately
  | WaitAndRetry
  | NoRetry
  | AskRedirect
  | MovedRedirect
deriving DecidableEq, Repr

/-- A redis error: its retry classification plus an identity tag so that
distinct errors can be told apart. -/
structure RedisError where
  method : RetryMethod
  id : Nat
deriving DecidableEq, Repr

/-- What `query` surfaces to the caller on failure (`anyhow::Error` in the
source): either a redis query error propagated by `?`, or the failure of
the reconnect performed by `try_connect`. -/
inductive KVError where
  | redis (e : RedisError)
  | connect (id : Nat)
deriving DecidableEq, Repr

/-- The environment one `RedisKVClient::query` call runs against:
`attempts i` is the outcome of running the command/pipeline on the
connection for the `i`-th time within this call, and `connectOk` /
`connectErrId` describe what `try_connect` would do if invoked. -/
structure KVEnv (T : Type) where
  attempts : Nat → Except RedisError T
  connectOk : Bool
  connectErrId : Nat

/-- Observable side effects of one `query` call: how many query attempts
ran on the connection, how many reconnects (`try_connect`) were performed,
and how many sleeps were taken. -/
structure KVLog where
  queryAttempts : Nat
  connectAttempts : Nat
  sleeps : Nat
deriving DecidableEq, Repr

/-- The second query attempt (`Ok(q.query(&mut self.client).await?)`):
its error is what the caller receives. -/
def secondAttempt (env : KVEnv T) : Except KVError T :=
  match env.attempts 1 with
  | .ok t => .ok t
  | .error e => .error (.redis e)

/-- `RedisKVClient::query`: run the query once; on success return.  On
failure classify: Reconnect performs `try_connect` (whose failure is
surfaced immediately by `?`), RetryImmediately does nothing, WaitAndRetry
sleeps 100 ms; every other classification returns the original error
(`_ => Err(e)?`).  If the match falls through, the query is retried exactly
once and that second outcome is returned. -/
def RedisKVClient.query (env : KVEnv T) : Except KVError T × KVLog :=
  match env.attempts 0 with
  | .ok t => (.ok t, ⟨1, 0, 0⟩)
  | .error e =>
    match e.method with
    | .Reconnect =>
      if env.connectOk then
        (secondAttempt env, ⟨2, 1, 0⟩)
      else
        (.error (.connect env.connectErrId), ⟨1, 1, 0⟩)
    | .RetryImmediately => (secondAttempt env, ⟨2, 0, 0⟩)
    | .WaitAndRetry => (secondAttempt env, ⟨2, 0, 1⟩)
    | _ => (.error (.redis e), ⟨1, 0, 0⟩)

/-! ## Helper lemmas -/

/-- A parseable buffer whose version check passes constructs successfully. -/
lemma ControlFile.new_some_ok (d : ControlFileData) (v : PgMajorVersion)
    (h : ControlFile.try_pg_version ⟨d, some d⟩ = .ok v) :
    ControlFile.new (some d) = .ok ⟨d, some d⟩ := by
  simp [ControlFile.new, ControlFileData.decode, Bind.bind, Except.bind, h,
    pure, Except.pure]

/-- A parseable buffer whose version check bails fails to construct. -/
lemma ControlFile.new_some_err (d : ControlFileData) (e : CfError)
    (h : ControlFile.try_pg_version ⟨d, some d⟩ = .error e) :
    ControlFile.new (some d) = .error e := by
  simp [ControlFile.new, ControlFileData.decode, Bind.bind, Except.bind, h,
    pure, Except.pure]

/-- The infallible accessor just strips a passing version check. -/
lemma ControlFile.pg_version_of_ok (cf : ControlFile) (v : PgMajorVersion)
    (h : cf.try_pg_version = .ok v) : cf.pg_version = some v := by
  simp [ControlFile.pg_version, h, Except.toOption]

/-- An unrecognized catalog version makes the version check bail. -/
lemma ControlFile.try_pg_version_unrecognized (cf : ControlFile)
    (h14 : cf.control_file_data.catalog_version_no ≠ 202107181)
    (h15 : cf.control_file_data.catalog_version_no ≠ 202209061)
    (h16 : cf.control_file_data.catalog_version_no ≠ 202307071)
    (h17 : cf.control_file_data.catalog_version_no ≠ 202406281) :
    cf.try_pg_version =
      .error (.decode ("unrecognized catalog version " ++
        toString cf.control_file_data.catalog_version_no)) := by
  simp [ControlFile.try_pg_version, h14, h15, h16, h17]

/-- Any error the retry driver hands back is permanent: a transient
failure is always retried, never returned. -/
lemma retryForeverAux_error_isPermanent (f : Nat → Except DownloadError α)
    (cancel : Nat → Bool) :
    ∀ fuel i e, retryForeverAux f cancel i fuel = some (.error e) →
      e.isPermanent = true := by
  intro fuel
  induction fuel with
  | zero =>
    intro i e h
    simp [retryForeverAux] at h
  | succ n ih =>
    intro i e h
    unfold retryForeverAux at h
    cases hf : f i with
    | ok v => rw [hf] at h; simp at h
    | error e' =>
      rw [hf] at h
      cases hp : e'.isPermanent with
      | true =>
        simp [hp] at h
        subst h
        exact hp
      | false =>
        cases hc : cancel i with
        | true => simp [hp, hc] at h; subst h; rfl
        | false =>
          simp [hp, hc] at h
          exact ih (i + 1) e h

/-- While every attempt fails transiently and cancellation never fires,
the retry driver never finishes: it retries indefinitely. -/
lemma retryForeverAux_all_transient (f : Nat → Except DownloadError α)
    (cancel : Nat → Bool) (hf : ∀ i, f i = .error .Transient)
    (hc : ∀ i, cancel i = false) :
    ∀ fuel i, retryForeverAux f cancel i fuel = none := by
  intro fuel
  induction fuel with
  | zero => intro i; rfl
  | succ n ih =>
    intro i
    unfold retryForeverAux
    rw [hf i]
    simp [DownloadError.isPermanent, hc i]
    exact ih (i + 1)

/-- A finished run comes from the driver returning that outcome. -/
lemma runOf_done (x : Option (Except DownloadError α)) (r : Except DownloadError α)
    (h : runOf x = .done r) : x = some r := by
  cases x with
  | none => simp [runOf] at h
  | some r' =>
    simp [runOf] at h
    rw [h]

/-- Evaluation of `query` when the first attempt succeeds. -/
lemma query_first_ok (env : KVEnv T) (t : T) (h : env.attempts 0 = .ok t) :
    RedisKVClient.query env = (.ok t, ⟨1, 0, 0⟩) := by
  simp [RedisKVClient.query, h]

/-- Evaluation of `query`: Reconnect classification, successful connect. -/
lemma query_reconnect_connected (env : KVEnv T) (e : RedisError)
    (h0 : env.attempts 0 = .error e) (hm : e.method = .Reconnect)
    (hc : env.connectOk = true) :
    RedisKVClient.query env = (secondAttempt env, ⟨2, 1, 0⟩) := by
  simp [RedisKVClient.query, h0, hm, hc]

/-- Evaluation of `query`: Reconnect classification, failed connect. -/
lemma query_reconnect_failed (env : KVEnv T) (e : RedisError)
    (h0 : env.attempts 0 = .error e) (hm : e.method = .Reconnect)
    (hc : env.connectOk = false) :
    RedisKVClient.query env = (.error (.connect env.connectErrId), ⟨1, 1, 0⟩) := by
  simp [RedisKVClient.query, h0, hm, hc]

/-- Evaluation of `query`: RetryImmediately classification. -/
lemma query_retry_immediately (env : KVEnv T) (e : RedisError)
    (h0 : env.attempts 0 = .error e) (hm : e.method = .RetryImmediately) :
    RedisKVClient.query env = (secondAttempt env, ⟨2, 0, 0⟩) := by
  simp [RedisKVClient.query, h0, hm]

/-- Evaluation of `query`: WaitAndRetry classification. -/
lemma query_wait_and_retry (env : KVEnv T) (e : RedisError)
    (h0 : env.attempts 0 = .error e) (hm : e.method = .WaitAndRetry) :
    RedisKVClient.query env = (secondAttempt env, ⟨2, 0, 1⟩) := by
  simp [RedisKVClient.query, h0, hm]

/-- Evaluation of `query`: the fatal catch-all (`_ => Err(e)?`). -/
lemma query_fatal (env : KVEnv T) (e : RedisError)
    (h0 : env.attempts 0 = .error e)
    (hm1 : e.method ≠ .Reconnect) (hm2 : e.method ≠ .RetryImmediately)
    (hm3 : e.method ≠ .WaitAndRetry) :
    RedisKVClient.query env = (.error (.redis e), ⟨1, 0, 0⟩) := by
  cases hm : e.method <;>
    first
    | exact absurd hm hm1
    | exact absurd hm hm2
    | exact absurd hm hm3
    | simp [RedisKVClient.query, h0, hm]

/-! ## Claims -/

/-- C1: `ControlFile::new` succeeds for a buffer whose catalog-version
field is one of the 4 recognized values, the exposed major version then
being the table entry (PG14, PG15, PG16, PG17 respectively); for a buffer
whose catalog-version field is any other value, construction fails with a
decode error. -/
theorem c1_control_file_version_table (ck v : Nat)
    (h14 : v ≠ 202107181) (h15 : v ≠ 202209061)
    (h16 : v ≠ 202307071) (h17 : v ≠ 202406281) :
    (∃ cf, ControlFile.new (some ⟨202107181, ck⟩) = .ok cf ∧
      cf.pg_version = some .PG14) ∧
    (∃ cf, ControlFile.new (some ⟨202209061, ck⟩) = .ok cf ∧
      cf.pg_version = some .PG15) ∧
    (∃ cf, ControlFile.new (some ⟨202307071, ck⟩) = .ok cf ∧
      cf.pg_version = some .PG16) ∧
    (∃ cf, ControlFile.new (some ⟨202406281, ck⟩) = .ok cf ∧
      cf.pg_version = some .PG17) ∧
    (∃ m, ControlFile.new (some ⟨v, ck⟩) = .error (.decode m)) := by
  have t14 : ControlFile.try_pg_version ⟨⟨202107181, ck⟩, some ⟨202107181, ck⟩⟩ =
      .ok .PG14 := by simp [ControlFile.try_pg_version]
  have t15 : ControlFile.try_pg_version ⟨⟨202209061, ck⟩, some ⟨202209061, ck⟩⟩ =
      .ok .PG15 := by simp [ControlFile.try_pg_version]
  have t16 : ControlFile.try_pg_version ⟨⟨202307071, ck⟩, some ⟨202307071, ck⟩⟩ =
      .ok .PG16 := by simp [ControlFile.try_pg_version]
  have t17 : ControlFile.try_pg_version ⟨⟨202406281, ck⟩, some ⟨202406281, ck⟩⟩ =
      .ok .PG17 := by simp [ControlFile.try_pg_version]
  refine
    ⟨⟨_, ControlFile.new_some_ok _ _ t14, ControlFile.pg_version_of_ok _ _ t14⟩,
     ⟨_, ControlFile.new_some_ok _ _ t15, ControlFile.pg_version_of_ok _ _ t15⟩,
     ⟨_, ControlFile.new_some_ok _ _ t16, ControlFile.pg_version_of_ok _ _ t16⟩,
     ⟨_, ControlFile.new_some_ok _ _ t17, ControlFile.pg_version_of_ok _ _ t17⟩,
     "unrecognized catalog version " ++ toString v,
     ControlFile.new_some_err _ _
       (ControlFile.try_pg_version_unrecognized ⟨⟨v, ck⟩, some ⟨v, ck⟩⟩
         h14 h15 h16 h17)⟩

/-- Witness for C1 at checkpoint 0 and unrecognized version 42. -/
theorem c1_control_file_version_table_witness :
    (∃ cf, ControlFile.new (some ⟨202107181, 0⟩) = .ok cf ∧
      cf.pg_version = some .PG14) ∧
    (∃ cf, ControlFile.new (some ⟨202209061, 0⟩) = .ok cf ∧
      cf.pg_version = some .PG15) ∧
    (∃ cf, ControlFile.new (some ⟨202307071, 0⟩) = .ok cf ∧
      cf.pg_version = some .PG16) ∧
    (∃ cf, ControlFile.new (some ⟨202406281, 0⟩) = .ok cf ∧
      cf.pg_version = some .PG17) ∧
    (∃ m, ControlFile.new (some ⟨42, 0⟩) = .error (.decode m)) :=
  c1_control_file_version_table 0 42 (by decide) (by decide) (by decide) (by decide)

/-- C2: for every `ControlFile`, the exposed base position is the raw
checkpoint position aligned down to the nearest segment boundary — the
alignment floor (a multiple of the segment size, at most the raw position,
and less than one segment below it); when the raw checkpoint position is
not itself aligned, it is never what `base_lsn` exposes. -/
theorem c2_base_lsn_alignment_floor (cf : ControlFile) :
    cf.base_lsn = Lsn.align cf.control_file_data.checkPoint ∧
    WAL_SEGMENT_SIZE ∣ cf.base_lsn ∧
    cf.base_lsn ≤ cf.control_file_data.checkPoint ∧
    cf.control_file_data.checkPoint - cf.base_lsn < WAL_SEGMENT_SIZE ∧
    (¬ WAL_SEGMENT_SIZE ∣ cf.control_file_data.checkPoint →
      cf.base_lsn ≠ cf.control_file_data.checkPoint) := by
  set ck := cf.control_file_data.checkPoint with hck
  have hbase : cf.base_lsn = ck / WAL_SEGMENT_SIZE * WAL_SEGMENT_SIZE := rfl
  refine ⟨rfl, ⟨ck / WAL_SEGMENT_SIZE, by rw [hbase]; ring⟩, ?_, ?_, ?_⟩
  · rw [hbase]; exact Nat.div_mul_le_self ck WAL_SEGMENT_SIZE
  · rw [hbase]
    simp only [WAL_SEGMENT_SIZE]
    omega
  · intro hndvd heq
    exact hndvd (heq ▸ ⟨ck / WAL_SEGMENT_SIZE, by rw [hbase]; ring⟩)

/-- Witness for C2 at a control file whose checkpoint position 3 is not
segment-aligned: the exposed base position is 0, not the raw 3. -/
theorem c2_base_lsn_alignment_floor_witness :
    ControlFile.base_lsn ⟨⟨202307071, 3⟩, some ⟨202307071, 3⟩⟩ ≠ 3 :=
  (c2_base_lsn_alignment_floor ⟨⟨202307071, 3⟩, some ⟨202307071, 3⟩⟩).2.2.2.2
    (by decide)

/-- C9: every successfully constructed `ControlFile` passes the version
check, so the infallible accessor `pg_version` returns a value — the
`expect` in the source is unreachable. -/
theorem c9_pg_version_infallible (buf : ControlFileBuf) (cf : ControlFile)
    (h : ControlFile.new buf = .ok cf) :
    ∃ v, cf.try_pg_version = .ok v ∧ cf.pg_version = some v := by
  cases buf with
  | none =>
    simp [ControlFile.new, ControlFileData.decode, Bind.bind, Except.bind] at h
  | some d =>
    cases htry : ControlFile.try_pg_version ⟨d, some d⟩ with
    | ok v =>
      rw [ControlFile.new_some_ok _ _ htry] at h
      injection h with h
      subst h
      exact ⟨v, htry, ControlFile.pg_version_of_ok _ _ htry⟩
    | error e =>
      rw [ControlFile.new_some_err _ _ htry] at h
      simp at h

/-- Witness for C9 at the PG16 catalog version. -/
theorem c9_pg_version_infallible_witness :
    ∃ v, ControlFile.try_pg_version ⟨⟨202307071, 7⟩, some ⟨202307071, 7⟩⟩ = .ok v ∧
      ControlFile.pg_version ⟨⟨202307071, 7⟩, some ⟨202307071, 7⟩⟩ = some v :=
  c9_pg_version_infallible (some ⟨202307071, 7⟩) ⟨⟨202307071, 7⟩, some ⟨202307071, 7⟩⟩
    (by decide)

/-- C3: every `query` call makes at most one additional attempt after a
first failure — the single-retry bound holds regardless of the error's
classification — and when both attempts fail (a second attempt was made
and it failed too) the caller receives the second attempt's error. -/
theorem c3_kv_query_single_retry {T : Type} (env : KVEnv T) :
    (RedisKVClient.query env).2.queryAttempts ≤ 2 ∧
    (∀ e1 e2 : RedisError, env.attempts 0 = .error e1 →
      env.attempts 1 = .error e2 →
      (RedisKVClient.query env).2.queryAttempts = 2 →
      (RedisKVClient.query env).1 = .error (.redis e2)) := by
  cases h0 : env.attempts 0 with
  | ok t =>
    rw [query_first_ok env t h0]
    refine ⟨by simp, ?_⟩
    intro e1 e2 he1 _ _
    exact absurd he1 (by simp)
  | error e =>
    have hsecond : ∀ e2 : RedisError, env.attempts 1 = .error e2 →
        secondAttempt env = .error (.redis e2) := by
      intro e2 h1
      simp [secondAttempt, h1]
    by_cases hmr : e.method = .Reconnect
    · cases hc : env.connectOk with
      | true =>
        rw [query_reconnect_connected env e h0 hmr hc]
        exact ⟨by simp, fun _ e2 _ h1 _ => hsecond e2 h1⟩
      | false =>
        rw [query_reconnect_failed env e h0 hmr hc]
        exact ⟨by simp, fun _ _ _ _ hq => absurd hq (by simp)⟩
    · by_cases hmi : e.method = .RetryImmediately
      · rw [query_retry_immediately env e h0 hmi]
        exact ⟨by simp, fun _ e2 _ h1 _ => hsecond e2 h1⟩
      · by_cases hmw : e.method = .WaitAndRetry
        · rw [query_wait_and_retry env e h0 hmw]
          exact ⟨by simp, fun _ e2 _ h1 _ => hsecond e2 h1⟩
        · rw [query_fatal env e h0 hmr hmi hmw]
          exact ⟨by simp, fun _ _ _ _ hq => absurd hq (by simp)⟩

/-- Witness for C3: two consecutive RetryImmediately-classified failures
stay within the two-attempt bound and surface the second error. -/
theorem c3_kv_query_single_retry_witness :
    (RedisKVClient.query (T := Nat)
      { attempts := fun i => .error ⟨.RetryImmediately, i⟩
        connectOk := true
        connectErrId := 0 }).2.queryAttempts ≤ 2 ∧
    (RedisKVClient.query (T := Nat)
      { attempts := fun i => .error ⟨.RetryImmediately, i⟩
        connectOk := true
        connectErrId := 0 }).1 = .error (.redis ⟨.RetryImmediately, 1⟩) :=
  ⟨(c3_kv_query_single_retry _).1,
   (c3_kv_query_single_retry _).2 ⟨.RetryImmediately, 0⟩ ⟨.RetryImmediately, 1⟩
     rfl rfl (by decide)⟩

/-- C8: a Reconnect-classified first failure makes `query` perform exactly
one reconnect; if the connect fails, that failure is surfaced immediately
with no second query attempt; if the connect succeeds, the same query runs
exactly once more and its outcome is what the caller gets. -/
theorem c8_kv_query_reconnect_policy {T : Type} (env : KVEnv T) (e : RedisError)
    (h0 : env.attempts 0 = .error e) (hm : e.method = .Reconnect) :
    (RedisKVClient.query env).2.connectAttempts = 1 ∧
    (env.connectOk = false →
      (RedisKVClient.query env).1 = .error (.connect env.connectErrId) ∧
      (RedisKVClient.query env).2.queryAttempts = 1) ∧
    (env.connectOk = true →
      (RedisKVClient.query env).2.queryAttempts = 2 ∧
      (RedisKVClient.query env).1 = secondAttempt env) := by
  cases hc : env.connectOk with
  | true =>
    rw [query_reconnect_connected env e h0 hm hc]
    refine ⟨rfl, ?_, fun _ => ⟨rfl, rfl⟩⟩
    intro hfalse
    exact absurd hfalse (by simp)
  | false =>
    rw [query_reconnect_failed env e h0 hm hc]
    refine ⟨rfl, fun _ => ⟨rfl, rfl⟩, ?_⟩
    intro htrue
    exact absurd htrue (by simp)

/-- Witness for C8: a Reconnect-classified failure with a failing connect
surfaces the connect error after a single query attempt; with a working
connect the query is retried once and succeeds. -/
theorem c8_kv_query_reconnect_policy_witness :
    (RedisKVClient.query (T := Nat)
      { attempts := fun _ => .error ⟨.Reconnect, 3⟩
        connectOk := false
        connectErrId := 5 }).1 = .error (.connect 5) ∧
    (RedisKVClient.query (T := Nat)
      { attempts := fun _ => .error ⟨.Reconnect, 3⟩
        connectOk := false
        connectErrId := 5 }).2.queryAttempts = 1 ∧
    (RedisKVClient.query (T := Nat)
      { attempts := fun i => if i = 0 then .error ⟨.Reconnect, 3⟩ else .ok 11
        connectOk := true
        connectErrId := 5 }).2.queryAttempts = 2 :=
  ⟨((c8_kv_query_reconnect_policy _ ⟨.Reconnect, 3⟩ rfl rfl).2.1 rfl).1,
   ((c8_kv_query_reconnect_policy _ ⟨.Reconnect, 3⟩ rfl rfl).2.1 rfl).2,
   ((c8_kv_query_reconnect_policy _ ⟨.Reconnect, 3⟩ rfl rfl).2.2 rfl).1⟩

/-- C10: when the first failure's classification is none of Reconnect,
RetryImmediately, or WaitAndRetry, the original error is returned
unchanged, no second query attempt is made, no reconnect is performed, and
no sleep is taken. -/
theorem c10_kv_query_fatal_passthrough {T : Type} (env : KVEnv T) (e : RedisError)
    (h0 : env.attempts 0 = .error e)
    (hm1 : e.method ≠ .Reconnect) (hm2 : e.method ≠ .RetryImmediately)
    (hm3 : e.method ≠ .WaitAndRetry) :
    (RedisKVClient.query env).1 = .error (.redis e) ∧
    (RedisKVClient.query env).2 = ⟨1, 0, 0⟩ := by
  rw [query_fatal env e h0 hm1 hm2 hm3]
  exact ⟨rfl, rfl⟩

/-- Witness for C10 at a NoRetry-classified failure. -/
theorem c10_kv_query_fatal_passthrough_witness :
    (RedisKVClient.query (T := Nat)
      { attempts := fun _ => .error ⟨.NoRetry, 8⟩
        connectOk := true
        connectErrId := 0 }).1 = .error (.redis ⟨.NoRetry, 8⟩) ∧
    (RedisKVClient.query (T := Nat)
      { attempts := fun _ => .error ⟨.NoRetry, 8⟩
        connectOk := true
        connectErrId := 0 }).2 = ⟨1, 0, 0⟩ :=
  c10_kv_query_fatal_passthrough _ ⟨.NoRetry, 8⟩ rfl
    (by decide) (by decide) (by decide)

/-- C4: `start_inclusive ≤ end_exclusive` is a precondition of
`get_range`, not a recoverable error — when violated the call panics
before any I/O, in every environment — and under the precondition the
length computation (`checked_sub` + `unwrap`) never fails. -/
theorem c4_get_range_precondition (s e : Nat) :
    (e < s → ∀ env p fuel, get_range env p s e fuel = .panicked) ∧
    (s ≤ e → checked_sub e s = some (e - s)) := by
  constructor
  · intro h env p fuel
    have hcs : checked_sub e s = none := by
      simp only [checked_sub, ite_eq_right_iff]
      omega
    simp [get_range, hcs]
  · intro h
    simp [checked_sub, h]

/-- Witness for C4: `get_range` with start 5 past end 3 panics in an empty
store, and the length computation succeeds for start 2, end 7. -/
theorem c4_get_range_precondition_witness :
    get_range (StoreEnv.calm fun _ => none) ["p"] 5 3 1 = .panicked ∧
    checked_sub 7 2 = some 5 :=
  ⟨(c4_get_range_precondition 5 3).1 (by decide) _ ["p"] 1,
   (c4_get_range_precondition 2 7).2 (by decide)⟩

/-- C5: when the object holds at least `e` bytes, `get_range` returns
exactly the `e - s` bytes starting at offset `s`; when the object holds
fewer than `e` bytes, the call fails rather than returning a shorter
buffer. -/
theorem c5_get_range_exact_length (objects : RemotePath → Option (List Nat))
    (p : RemotePath) (s e : Nat) (bytes : List Nat)
    (hobj : objects p = some bytes) (hse : s ≤ e) :
    (e ≤ bytes.length →
      get_range (StoreEnv.calm objects) p s e 1 =
        .done (.ok ((bytes.drop s).take (e - s))) ∧
      ((bytes.drop s).take (e - s)).length = e - s) ∧
    (bytes.length < e →
      ∀ buf, get_range (StoreEnv.calm objects) p s e 1 ≠ .done (.ok buf)) := by
  have hcs : checked_sub e s = some (e - s) := by simp [checked_sub, hse]
  constructor
  · intro hle
    constructor
    · simp [get_range, hcs, download_retry_forever, retryForeverAux,
        StoreEnv.attempt, StoreEnv.calm, downloadRangeOp, hobj, hle, runOf]
    · simp only [List.length_take, List.length_drop]
      omega
  · intro hgt buf
    have hnle : ¬ e ≤ bytes.length := by omega
    simp [get_range, hcs, download_retry_forever, retryForeverAux,
      StoreEnv.attempt, StoreEnv.calm, downloadRangeOp, hobj, hnle, runOf,
      DownloadError.isPermanent]

/-- Witness for C5: on a 5-byte object, range [1, 4) returns exactly bytes
2..4 (3 bytes); range [1, 7) fails rather than truncating. -/
theorem c5_get_range_exact_length_witness :
    get_range (StoreEnv.calm fun p => if p = ["x"] then some [1, 2, 3, 4, 5] else none)
      ["x"] 1 4 1 = .done (.ok [2, 3, 4]) ∧
    ∀ buf,
      get_range (StoreEnv.calm fun p => if p = ["x"] then some [1, 2, 3, 4, 5] else none)
        ["x"] 1 7 1 ≠ .done (.ok buf) :=
  ⟨((c5_get_range_exact_length _ ["x"] 1 4 [1, 2, 3, 4, 5] (by decide)
      (by decide)).1 (by decide)).1,
   (c5_get_range_exact_length _ ["x"] 1 7 [1, 2, 3, 4, 5] (by decide)
      (by decide)).2 (by decide)⟩

/-- C6: `get_json` returns `none` when the object is absent (NotFound),
`some parsed` when present and well-formed, and a terminal decode failure
when present but malformed — absence is never conflated with a parse
failure. -/
theorem c6_get_json_trichotomy {T : Type} (objects : RemotePath → Option (List Nat))
    (parse : List Nat → Option T) (p : RemotePath) :
    (objects p = none →
      get_json (StoreEnv.calm objects) parse p 1 = .done (.ok none)) ∧
    (∀ bytes v, objects p = some bytes → parse bytes = some v →
      get_json (StoreEnv.calm objects) parse p 1 = .done (.ok (some v))) ∧
    (∀ bytes, objects p = some bytes → parse bytes = none →
      get_json (StoreEnv.calm objects) parse p 1 =
        .done (.error (.Other "serialize"))) := by
  refine ⟨?_, ?_, ?_⟩
  · intro habs
    have hget : get (StoreEnv.calm objects) p 1 = .done (.error .NotFound) := by
      simp [get, download_retry_forever, retryForeverAux, StoreEnv.attempt,
        StoreEnv.calm, getOp, habs, runOf, DownloadError.isPermanent]
    simp [get_json, hget]
  · intro bytes v hpres hparse
    have hget : get (StoreEnv.calm objects) p 1 = .done (.ok bytes) := by
      simp [get, download_retry_forever, retryForeverAux, StoreEnv.attempt,
        StoreEnv.calm, getOp, hpres, runOf]
    simp [get_json, hget, hparse]
  · intro bytes hpres hparse
    have hget : get (StoreEnv.calm objects) p 1 = .done (.ok bytes) := by
      simp [get, download_retry_forever, retryForeverAux, StoreEnv.attempt,
        StoreEnv.calm, getOp, hpres, runOf]
    simp [get_json, hget, hparse]

/-- Witness for C6 with a parser accepting exactly the byte string [7]: an
absent object yields `none`, a present well-formed object yields the parsed
value, and a present malformed object yields the decode failure. -/
theorem c6_get_json_trichotomy_witness :
    get_json (StoreEnv.calm fun _ => none) (fun b => if b = [7] then some 99 else none)
      ["a"] 1 = .done (.ok none) ∧
    get_json (StoreEnv.calm fun p => if p = ["a"] then some [7] else none)
      (fun b => if b = [7] then some 99 else none) ["a"] 1 = .done (.ok (some 99)) ∧
    get_json (StoreEnv.calm fun p => if p = ["a"] then some [8] else none)
      (fun b => if b = [7] then some 99 else none) ["a"] 1 =
      .done (.error (.Other "serialize")) :=
  ⟨(c6_get_json_trichotomy _ _ ["a"]).1 rfl,
   (c6_get_json_trichotomy _ _ ["a"]).2.1 [7] 99 (by decide) (by decide),
   (c6_get_json_trichotomy _ _ ["a"]).2.2 [8] (by decide) (by decide)⟩

/-- C7: every façade operation (listfilesindir, listdir, get, get_range)
runs under the retry-forever driver: any error it surfaces is
non-transient — NotFound, Cancelled, or a terminal Other — and while every
attempt fails transiently and cancellation never fires, no operation
returns at all (it retries indefinitely, never surfacing the transient
failure). -/
theorem c7_facade_only_terminal_errors (env : StoreEnv) (p q r : RemotePath)
    (s e fuel : Nat) (err : DownloadError) :
    ((listfilesindir env p fuel = .done (.error err) ∨
      listdir env p fuel = .done (.error err) ∨
      get env q fuel = .done (.error err) ∨
      get_range env r s e fuel = .done (.error err)) →
      err ≠ .Transient ∧
        (err = .NotFound ∨ err = .Cancelled ∨ ∃ m, err = .Other m)) ∧
    ((∀ i, env.flaky i = true) → (∀ i, env.cancel i = false) →
      (listfilesindir env p fuel = .panicked ∨ listfilesindir env p fuel = .pending) ∧
      (listdir env p fuel = .panicked ∨ listdir env p fuel = .pending) ∧
      get env q fuel = .pending ∧
      (get_range env r s e fuel = .panicked ∨ get_range env r s e fuel = .pending)) := by
  constructor
  · intro h
    have herr : err.isPermanent = true := by
      rcases h with h | h | h | h
      · unfold listfilesindir at h
        cases ho : object_name p <;> rw [ho] at h
        · simp at h
        · exact retryForeverAux_error_isPermanent _ _ _ _ _ (runOf_done _ _ h)
      · unfold listdir at h
        cases ho : object_name p <;> rw [ho] at h
        · simp at h
        · exact retryForeverAux_error_isPermanent _ _ _ _ _ (runOf_done _ _ h)
      · unfold get at h
        exact retryForeverAux_error_isPermanent _ _ _ _ _ (runOf_done _ _ h)
      · unfold get_range at h
        cases hcs : checked_sub e s <;> rw [hcs] at h
        · simp at h
        · exact retryForeverAux_error_isPermanent _ _ _ _ _ (runOf_done _ _ h)
    constructor
    · intro hT
      rw [hT] at herr
      exact absurd herr (by simp [DownloadError.isPermanent])
    · cases err with
      | NotFound => exact .inl rfl
      | Cancelled => exact .inr (.inl rfl)
      | Other m => exact .inr (.inr ⟨m, rfl⟩)
      | Transient => exact absurd herr (by simp [DownloadError.isPermanent])
  · intro hf hc
    have hrun : ∀ (α : Type) (base : Except DownloadError α),
        download_retry_forever (env.attempt base) env.cancel fuel = none := by
      intro α base
      exact retryForeverAux_all_transient _ _
        (fun i => by simp [StoreEnv.attempt, hf i]) hc fuel 0
    refine ⟨?_, ?_, ?_, ?_⟩
    · unfold listfilesindir
      cases ho : object_name p
      · exact .inl rfl
      · simp only [hrun, runOf]
        exact .inr trivial
    · unfold listdir
      cases ho : object_name p
      · exact .inl rfl
      · simp only [hrun, runOf]
        exact .inr trivial
    · unfold get
      simp only [hrun, runOf]
    · unfold get_range
      cases hcs : checked_sub e s
      · exact .inl rfl
      · simp only [hrun, runOf]
        exact .inr trivial

/-- Witness for C7: in a store where every attempt is cancelled right
away, `get` completes with Cancelled — a permanent outcome; and with
flaky-only attempts and no cancellation every operation keeps retrying. -/
theorem c7_facade_only_terminal_errors_witness :
    (DownloadError.Cancelled ≠ DownloadError.Transient ∧
      (DownloadError.Cancelled = .NotFound ∨ DownloadError.Cancelled = .Cancelled ∨
        ∃ m, DownloadError.Cancelled = .Other m)) ∧
    get { objects := fun _ => none
          listing := fun _ => ⟨[], []⟩
          flaky := fun _ => true
          cancel := fun _ => false } ["q"] 3 = .pending :=
  ⟨(c7_facade_only_terminal_errors
      { objects := fun _ => none
        listing := fun _ => ⟨[], []⟩
        flaky := fun _ => true
        cancel := fun _ => true } ["p"] ["q"] ["r"] 1 4 3 .Cancelled).1
      (.inr (.inr (.inl (by decide)))),
   ((c7_facade_only_terminal_errors
      { objects := fun _ => none
        listing := fun _ => ⟨[], []⟩
        flaky := fun _ => true
        cancel := fun _ => false } ["p"] ["q"] ["r"] 1 4 3 .Cancelled).2
      (fun _ => rfl) (fun _ => rfl)).2.2.1⟩

end Neon
